import Mathlib

/-!
# Ultimarc device-communication layer: a shallow embedding

This file embeds, in Lean, the device-communication core of the
QtPyUltimarc repository:

* `ultimarc/devices/_device.py` — `USBDeviceHandle.write`,
  `USBDeviceHandle.read`, `USBDeviceHandle._make_control_transfer`,
  `USBDeviceHandle.validate_config_base`, and the ctypes structures
  `UltimarcConfigurationStruct` / `UltimarcByteStruct` / `UltimarcStruct`;
* `ultimarc/devices/usb_button.py` — `USBButtonColorStruct`,
  `USBButtonDevice.set_color`, `USBButtonDevice.get_color`,
  `USBButtonDevice.set_config`;
* `ultimarc/devices/mini_pac.py` — `MiniPACDevice.get_device_configuration`.

Machine bytes are modelled as `Nat` reduced `% 256` where ctypes stores
them (ctypes integer fields wrap silently).  The result of the libusb
call `usb.control_transfer` is an oracle `Nat → Int` giving the return
code of the k-th USB transfer made during a call; `_make_control_transfer`
maps a return code to a `Bool` exactly as the source does (`ret >= 0`),
after a `ctypes.cast` of its data argument that succeeds on the `byref`
pointers the write path passes but raises `ctypes.ArgumentError` on the
`Structure` instance the read path passes.  The byte layout of ctypes
structures follows the CPython ctypes rules on a little-endian platform
(native alignment, c_int bit-field container).

Python dynamic-typing failures matter for `usb_button.py`, whose calls to
`write` pass arguments positionally against the newer signature of `write`
`(b_request, report_id, w_index, msg_size, data, data_size, ...)`.  A
small dynamic-value type `PyVal` and error type `PyErr` model the Python
values and exceptions that arise on those paths.
-/

namespace Ultimarc

/-! ## Constants (from `_device.py`, `usb_button.py`, `mini_pac.py` and libusb) -/

/-- `REPORT_TYPE_OUT = 200` (`_device.py` line 19; decimal in the source). -/
def REPORT_TYPE_OUT : Nat := 200

/-- libusb `LIBUSB_ENDPOINT_OUT = 0x00`. -/
def LIBUSB_ENDPOINT_OUT : Nat := 0x00

/-- libusb `LIBUSB_ENDPOINT_IN = 0x80`. -/
def LIBUSB_ENDPOINT_IN : Nat := 0x80

/-- libusb `LIBUSB_REQUEST_TYPE_CLASS = 0x01 << 5 = 0x20`. -/
def LIBUSB_REQUEST_TYPE_CLASS : Nat := 0x20

/-- libusb `LIBUSB_RECIPIENT_INTERFACE = 0x01`. -/
def LIBUSB_RECIPIENT_INTERFACE : Nat := 0x01

/-- `ULTIMARC_MACRO_SIZE = 85` (`_device.py` line 23). -/
def ULTIMARC_MACRO_SIZE : Nat := 85

/-- `USBB_GET_COLOR = 0x01` (`usb_button.py`). -/
def USBB_GET_COLOR : Nat := 0x01

/-- `USBB_SET_COLOR = 0x09` (`usb_button.py`). -/
def USBB_SET_COLOR : Nat := 0x09

/-- `USBButtonWValue = 0x0200` (`usb_button.py`). -/
def USBButtonWValue : Nat := 0x0200

/-- `USBButtonWIndex = 0x0` (`usb_button.py`). -/
def USBButtonWIndex : Nat := 0x0

/-- `MINIPAC_SET = 0x09` (`mini_pac.py`). -/
def MINIPAC_SET : Nat := 0x09

/-- `MINIPAC_REPORTID = 3` (`mini_pac.py`). -/
def MINIPAC_REPORTID : Nat := 3

/-- `MINIPACWIndex = 0x02` (`mini_pac.py`). -/
def MINIPACWIndex : Nat := 0x02

/-! ## USB control transfers -/

/-- One call to `usb.control_transfer` as issued by
`USBDeviceHandle._make_control_transfer` (`_device.py` lines 193-222):
the four setup-packet parameters, the bytes of the buffer the data
pointer refers to, the byte offset of the pointer into that buffer
(`ct.byref(payload, off)`), and the `size` argument. -/
structure ControlTransfer where
  requestType : Nat
  bRequest : Nat
  wValue : Nat
  wIndex : Nat
  dataBytes : List Nat
  dataOffset : Nat
  size : Nat
  deriving Repr, DecidableEq

/-- `_make_control_transfer` returns `True` exactly when the libusb
return code `ret` satisfies `ret >= 0` (`_device.py` lines 216-222). -/
def make_control_transfer (ret : Int) : Bool := decide (0 ≤ ret)

/-! ## `USBDeviceHandle.write` (`_device.py` lines 224-273)

The source:

* combines `request_type = LIBUSB_ENDPOINT_OUT | request_type | recipient`
  and `w_value = report_type | report_id`;
* allocates a 5-byte buffer `payload` zero-initialised once, with
  `payload[0] = report_id`;
* loops `while pos < data_size`, each iteration `memmove`-ing
  `msg_size if msg_size <= 4 else 4` bytes of `data` at offset `pos`
  into `payload` at offset 1, issuing one control transfer whose data
  pointer is `byref(payload)` when `report_id` is non-zero and
  `byref(payload, 1)` otherwise, always with size `sizeof(payload) = 5`,
  then advancing `pos += msg_size`;
* discards the boolean returned by `_make_control_transfer` and falls
  off the end of the function, i.e. returns Python `None`.

`data` is modelled as the byte content of memory at the data pointer
(`data i` = byte at offset `i`), so the `memmove` reads are total.  The
loop is fuel-indexed; fuel `data_size + 1` is enough for every positive
`msg_size` (for `msg_size = 0` the Python loop would not terminate). -/

/-- The number of data bytes copied per chunk:
`msg_size if msg_size <= 4 else 4` (`_device.py` line 267). -/
def chunkCopyLen (msg_size : Nat) : Nat := if msg_size ≤ 4 then msg_size else 4

/-- The 5-byte `payload` buffer as it stands when the chunk at data
offset `pos` is transferred: `report_id` (a `c_ubyte`, hence `% 256`),
then `chunkCopyLen msg_size` bytes of `data` starting at `pos`, then
zeros never overwritten since the zero-initialisation of the buffer. -/
def chunkPayload (report_id : Nat) (data : Nat → Nat) (pos msg_size : Nat) : List Nat :=
  report_id % 256 ::
    (((List.range (chunkCopyLen msg_size)).map fun i => data (pos + i) % 256)
      ++ List.replicate (4 - chunkCopyLen msg_size) 0)

/-- The control transfer issued for the chunk at data offset `pos`. -/
def chunkTransfer (request_type b_request w_value w_index report_id msg_size : Nat)
    (data : Nat → Nat) (pos : Nat) : ControlTransfer :=
  { requestType := request_type
    bRequest := b_request
    wValue := w_value
    wIndex := w_index
    dataBytes := chunkPayload report_id data pos msg_size
    dataOffset := if report_id ≠ 0 then 0 else 1
    size := 5 }

/-- The `while pos < data_size` loop of `write`.  `k` counts transfers
already made (it indexes the libusb oracle); each iteration records the
transfer and the boolean `_make_control_transfer` returned — which the
source discards. -/
def writeLoop (oracle : Nat → Int)
    (request_type b_request w_value w_index report_id msg_size : Nat)
    (data : Nat → Nat) (data_size : Nat) :
    Nat → Nat → Nat → List (ControlTransfer × Bool)
  | 0, _, _ => []
  | fuel + 1, pos, k =>
    if pos < data_size then
      (chunkTransfer request_type b_request w_value w_index report_id msg_size data pos,
        make_control_transfer (oracle k)) ::
        writeLoop oracle request_type b_request w_value w_index report_id msg_size
          data data_size fuel (pos + msg_size) (k + 1)
    else []

/-- `USBDeviceHandle.write`.  Parameters appear in source order; the
keyword-defaulted parameters `request_type`, `recipient`, `report_type`
come last.  Result: the list of transfers performed (paired with the
discarded per-transfer boolean), and the return value of the function — the
source has no `return` statement, so it is Python `None`. -/
def write (oracle : Nat → Int)
    (b_request report_id w_index msg_size : Nat) (data : Nat → Nat) (data_size : Nat)
    (request_type recipient report_type : Nat) :
    List (ControlTransfer × Bool) × Option Bool :=
  let rt := Nat.lor (Nat.lor LIBUSB_ENDPOINT_OUT request_type) recipient
  let wv := Nat.lor report_type report_id
  (writeLoop oracle rt b_request wv w_index report_id msg_size data data_size
      (data_size + 1) 0 0,
    none)

/-! ## `USBDeviceHandle.read` (`_device.py` lines 275-291)

The source combines
`request_type = LIBUSB_ENDPOINT_IN | request_type | recipient` and then
calls `_make_control_transfer` with the caller supplied `size` unchanged — the
comment above the call says "we need to add 8 extra bytes to the data
buffer for read requests", but no adjustment is made.

`_make_control_transfer` itself begins with
`data_ptr = ct.cast(data, ct.POINTER(ct.c_ubyte))` (`_device.py` line
204).  `ctypes.cast` accepts pointer-like arguments — the `ct.byref`
results `write` passes — but rejects a plain `Structure` instance with
`ctypes.ArgumentError` before any USB transfer is made.  `get_color`,
the only read call site in the repository, passes the
`USBButtonColorStruct` instance itself, so its reads take the error
branch. -/

/-- The Python exceptions arising on the modelled paths.
`argumentError` is `ctypes.ArgumentError`, raised by `ctypes.cast` on a
non-pointer-like argument. -/
inductive PyErr where
  | typeError
  | valueError
  | keyError
  | argumentError
  deriving Repr, DecidableEq

/-- The kinds of `data` argument handed to `_make_control_transfer` in
this repository: a `ct.byref(buffer, offset)` pointer (the `write`
path), or a ctypes `Structure` instance passed directly (the `read`
path from `get_color`).  Each carries the bytes of the underlying
buffer. -/
inductive CDataArg where
  | byrefArg : List Nat → Nat → CDataArg
  | structArg : List Nat → CDataArg
  deriving Repr, DecidableEq

/-- `ct.cast(data, ct.POINTER(ct.c_ubyte))` (`_device.py` line 204):
succeeds on a `byref` pointer, yielding the buffer and offset it refers
to; raises `ctypes.ArgumentError` on a `Structure` instance. -/
def castDataArg : CDataArg → Except PyErr (List Nat × Nat)
  | .byrefArg bytes off => .ok (bytes, off)
  | .structArg _ => .error .argumentError

/-- `USBDeviceHandle.read`: combine the IN direction into the request
type, then call `_make_control_transfer` with the caller supplied
`size` unchanged.  The cast at the top of `_make_control_transfer`
decides whether a transfer happens at all: on a `byref` argument the
transfer is made and the libusb return code mapped to a boolean; on a
`Structure` instance `ctypes.ArgumentError` propagates and no transfer
occurs. -/
def read (oracle : Int) (b_request w_value w_index : Nat) (data : CDataArg)
    (size request_type recipient : Nat) :
    Except PyErr (ControlTransfer × Bool) :=
  let rt := Nat.lor (Nat.lor LIBUSB_ENDPOINT_IN request_type) recipient
  match castDataArg data with
  | .error e => .error e
  | .ok (bytes, off) =>
    .ok ({ requestType := rt
           bRequest := b_request
           wValue := w_value
           wIndex := w_index
           dataBytes := bytes
           dataOffset := off
           size := size },
      make_control_transfer oracle)

/-! ## The ctypes configuration record (`_device.py` lines 26-120)

`UltimarcConfigurationStruct` declares six bit-fields of type `c_int`
(widths 1,1,1,2,1,2 — 8 bits in all), so ctypes allocates a full 4-byte
`c_int` storage unit for it and the structure has size 4 and alignment 4.
Inside `UltimarcStruct` the `configuration` field is therefore placed at
byte offset 4 (one alignment padding byte follows `quadrature` at offset
3), the 8 bits land in the first byte of the container on a little-endian
platform (first declared field in the least significant bits), and
`codes` begins at byte offset 8.  The total size is
3 + 1 (pad) + 4 + 3*49 + 8 + 8 + 85 = 256 bytes. -/

/-- `UltimarcConfigurationStruct` (`_device.py` lines 26-35): the six
bit-field values.  (ctypes `c_int` bit-fields; the encoder masks each to
its declared width.) -/
structure UltimarcConfigurationStruct where
  high_current_output : Nat
  accelerometer : Nat
  paclink : Nat
  debounce : Nat
  expand_interface : Nat
  blanks : Nat
  deriving Repr, DecidableEq

/-- The first byte of the `c_int` bit-field container: fields are packed
from bit 0 upward in declaration order, each masked to its width. -/
def configByte (c : UltimarcConfigurationStruct) : Nat :=
  c.high_current_output % 2 + 2 * (c.accelerometer % 2) + 4 * (c.paclink % 2)
    + 8 * (c.debounce % 4) + 32 * (c.expand_interface % 2) + 64 * (c.blanks % 4)

/-- Reading the six bit-fields back from the container byte. -/
def decodeConfigByte (b : Nat) : UltimarcConfigurationStruct :=
  { high_current_output := b % 2
    accelerometer := b / 2 % 2
    paclink := b / 4 % 2
    debounce := b / 8 % 4
    expand_interface := b / 32 % 2
    blanks := b / 64 % 4 }

/-- `UltimarcStruct` (`_device.py` lines 93-120).  The three
`UltimarcByteStruct` fields (49 named `c_ubyte` fields `byte_1` ..
`byte_49` each, `_device.py` lines 38-90) are modelled as maps
`Fin 49 → Nat`; likewise the eight `axis_offset_*`/`axis_scale_*`
`c_ubyte` fields and the 85-byte `macros` array. -/
structure UltimarcStruct where
  header : Nat
  led_packet : Nat
  quadrature : Nat
  configuration : UltimarcConfigurationStruct
  codes : Fin 49 → Nat
  shifted_codes : Fin 49 → Nat
  analog_axis_calibration : Fin 49 → Nat
  axis_offset : Fin 8 → Nat
  axis_scale : Fin 8 → Nat
  macros : Fin 85 → Nat

/-- The byte image of an `UltimarcStruct` value (what `bytes(x)` /
`memmove` out of the structure yields on a little-endian platform):
three header bytes, one alignment padding byte, the 4-byte `c_int`
bit-field container (bits in its first byte), the three 49-byte tables,
the axis offset and scale bytes, and the 85 macro bytes — 256 bytes. -/
def encodeUltimarcStruct (x : UltimarcStruct) : List Nat :=
  [x.header % 256, x.led_packet % 256, x.quadrature % 256, 0]
    ++ ([configByte x.configuration, 0, 0, 0]
    ++ ((List.ofFn fun i : Fin 49 => x.codes i % 256)
    ++ ((List.ofFn fun i : Fin 49 => x.shifted_codes i % 256)
    ++ ((List.ofFn fun i : Fin 49 => x.analog_axis_calibration i % 256)
    ++ ((List.ofFn fun i : Fin 8 => x.axis_offset i % 256)
    ++ ((List.ofFn fun i : Fin 8 => x.axis_scale i % 256)
    ++ (List.ofFn fun i : Fin 85 => x.macros i % 256)))))))

/-- Reading an `UltimarcStruct` back from a byte buffer
(`UltimarcStruct.from_buffer_copy`), using the ctypes offsets computed
above: `header` at 0, `led_packet` at 1, `quadrature` at 2, the
configuration bits in byte 4, `codes` at 8, `shifted_codes` at 57,
`analog_axis_calibration` at 106, axis offsets at 155, axis scales at
163, macros at 171. -/
def decodeUltimarcStruct (bs : List Nat) : UltimarcStruct :=
  { header := bs.getD 0 0
    led_packet := bs.getD 1 0
    quadrature := bs.getD 2 0
    configuration := decodeConfigByte (bs.getD 4 0)
    codes := fun i => bs.getD (8 + i.val) 0
    shifted_codes := fun i => bs.getD (57 + i.val) 0
    analog_axis_calibration := fun i => bs.getD (106 + i.val) 0
    axis_offset := fun i => bs.getD (155 + i.val) 0
    axis_scale := fun i => bs.getD (163 + i.val) 0
    macros := fun i => bs.getD (171 + i.val) 0 }

/-- The encoding that the words of the claim describe: header byte,
LED-packet byte, quadrature byte, one byte holding the 8-bit
configuration bit-field, then the three 49-byte tables, 8 axis-offset
bytes, 8 axis-scale bytes and the 85-byte macro buffer, tightly packed
with no padding.  Kept separate from `encodeUltimarcStruct` (the ctypes
layout) so the two can be compared. -/
def specEncodeUltimarcStruct (x : UltimarcStruct) : List Nat :=
  [x.header % 256, x.led_packet % 256, x.quadrature % 256, configByte x.configuration]
    ++ ((List.ofFn fun i : Fin 49 => x.codes i % 256)
    ++ ((List.ofFn fun i : Fin 49 => x.shifted_codes i % 256)
    ++ ((List.ofFn fun i : Fin 49 => x.analog_axis_calibration i % 256)
    ++ ((List.ofFn fun i : Fin 8 => x.axis_offset i % 256)
    ++ ((List.ofFn fun i : Fin 8 => x.axis_scale i % 256)
    ++ (List.ofFn fun i : Fin 85 => x.macros i % 256))))))

/-- Normalisation of the six bit-field values to their declared widths
(what storing them in the ctypes bit-fields keeps). -/
def reduceConfig (c : UltimarcConfigurationStruct) : UltimarcConfigurationStruct :=
  { high_current_output := c.high_current_output % 2
    accelerometer := c.accelerometer % 2
    paclink := c.paclink % 2
    debounce := c.debounce % 4
    expand_interface := c.expand_interface % 2
    blanks := c.blanks % 4 }

/-- Normalisation of every field of an `UltimarcStruct` to one byte
(resp. declared bit width); `decodeUltimarcStruct ∘ encodeUltimarcStruct`
equals this map. -/
def reduceUltimarc (x : UltimarcStruct) : UltimarcStruct :=
  { header := x.header % 256
    led_packet := x.led_packet % 256
    quadrature := x.quadrature % 256
    configuration := reduceConfig x.configuration
    codes := fun i => x.codes i % 256
    shifted_codes := fun i => x.shifted_codes i % 256
    analog_axis_calibration := fun i => x.analog_axis_calibration i % 256
    axis_offset := fun i => x.axis_offset i % 256
    axis_scale := fun i => x.axis_scale i % 256
    macros := fun i => x.macros i % 256 }

/-- A concrete configuration record used to compare the two encodings. -/
def sampleRecord : UltimarcStruct :=
  { header := 80
    led_packet := 81
    quadrature := 82
    configuration := { high_current_output := 1, accelerometer := 0, paclink := 1,
                       debounce := 2, expand_interface := 1, blanks := 3 }
    codes := fun _ => 42
    shifted_codes := fun _ => 0
    analog_axis_calibration := fun _ => 0
    axis_offset := fun _ => 0
    axis_scale := fun _ => 0
    macros := fun _ => 0 }

/-! ## `USBButtonColorStruct` (`usb_button.py` lines 26-33) and its codec -/

/-- `USBButtonColorStruct`: four `c_uint8` fields.  The `target` field
"Must always be 0x01" per the source comment. -/
structure USBButtonColorStruct where
  target : Nat
  red : Nat
  green : Nat
  blue : Nat
  deriving Repr, DecidableEq

/-- The 4-byte image of a `USBButtonColorStruct` (each field a
`c_uint8`, stored mod 256). -/
def encodeColorStruct (c : USBButtonColorStruct) : List Nat :=
  [c.target % 256, c.red % 256, c.green % 256, c.blue % 256]

/-- Reading a `USBButtonColorStruct` back from a byte buffer. -/
def decodeColorStruct (bs : List Nat) : USBButtonColorStruct :=
  { target := bs.getD 0 0
    red := bs.getD 1 0
    green := bs.getD 2 0
    blue := bs.getD 3 0 }

/-- `USBButtonColorStruct(target, red, green, blue)`: the ctypes
constructor stores each argument into a `c_uint8` field, wrapping
modulo 256 (negative values wrap too; `%` on `Int` is `Int.emod`,
whose result is non-negative here). -/
def mkUSBButtonColorStruct (target : Nat) (red green blue : Int) : USBButtonColorStruct :=
  { target := target % 256
    red := (red % 256).toNat
    green := (green % 256).toNat
    blue := (blue % 256).toNat }

/-! ## `USBButtonDevice.get_color` (`usb_button.py` lines 58-69)

`for x in range(20): ret = self.read(...); if ret: return rgb` — the
read call passes `USBB_GET_COLOR`, `USBButtonWValue`, `USBButtonWIndex`,
the 4-byte `USBButtonColorStruct` instance `data` itself and its size
(these arguments match the signature of `read` positionally).  The
device behaviour on attempt `k` is an oracle `att k = (libusb return
code, the 4 bytes the device would write into the buffer)`.  Because
`data` is a `Structure` instance, the cast inside
`_make_control_transfer` raises `ctypes.ArgumentError` on the very
first attempt, and `get_color` has no exception handler. -/

/-- The retry loop of `get_color`, with the attempt index `k` and the
remaining iteration count as fuel (starting at 20).  Result: the
outcome — a raised exception, or `some (red, green, blue)` for the
first successful read, or `none` for the `return None, None, None`
fall-through — paired with the number of read calls begun. -/
def getColorLoop (att : Nat → Int × List Nat) :
    Nat → Nat → Except PyErr (Option (Nat × Nat × Nat)) × Nat
  | _, 0 => (.ok none, 0)
  | k, fuel + 1 =>
    match read (att k).1 USBB_GET_COLOR USBButtonWValue USBButtonWIndex
      (.structArg (att k).2) 4 LIBUSB_REQUEST_TYPE_CLASS LIBUSB_RECIPIENT_INTERFACE with
    | .error e => (.error e, 1)
    | .ok r =>
      if r.2 then
        let c := decodeColorStruct (att k).2
        (.ok (some (c.red, c.green, c.blue)), 1)
      else
        let rest := getColorLoop att (k + 1) fuel
        (rest.1, rest.2 + 1)

/-- `USBButtonDevice.get_color`. -/
def get_color (att : Nat → Int × List Nat) :
    Except PyErr (Option (Nat × Nat × Nat)) × Nat :=
  getColorLoop att 0 20

/-! ## Python dynamic values, for the `usb_button.py` write calls

`USBButtonDevice.set_color` and `USBButtonDevice.set_config` call
`self.write(USBB_SET_COLOR, USBButtonWValue, USBButtonWIndex, data,
ct.sizeof(data))`.  Against the signature of `write`, namely
`(b_request, report_id, w_index, msg_size, data, data_size, ...)` this
binds `report_id := USBButtonWValue` (a `ct.c_uint16`), `msg_size :=`
the ctypes structure, `data := 4` and `data_size := None`.  The
line `w_value = report_type | report_id` then evaluates
`200 | c_uint16(0x0200)`, which raises `TypeError` (`c_uint16` supports
no `|` with `int`), before any control transfer is made. -/

/-- The Python values that reach `write` on the usb_button paths. -/
inductive PyVal where
  | pyInt : Int → PyVal
  | pyBool : Bool → PyVal
  | pyStr : String → PyVal
  | pyCUInt8 : Nat → PyVal
  | pyCUInt16 : Nat → PyVal
  | pyStruct : List Nat → PyVal
  | pyNone : PyVal
  deriving Repr, DecidableEq

/-- The numeric content of a ctypes-compatible value, as
`usb.control_transfer` receives it when the value is passed straight
through (`b_request`, `w_index`). -/
def pyNumVal : PyVal → Nat
  | .pyInt i => i.toNat
  | .pyBool b => if b then 1 else 0
  | .pyCUInt8 n => n % 256
  | .pyCUInt16 n => n % 65536
  | _ => 0

/-- `USBDeviceHandle.write` applied to dynamically-typed arguments, in
the source evaluation order: `w_value = report_type | report_id`
(line 253) raises `TypeError` unless `report_id` is an `int`;
`while pos < data_size` (line 263) raises `TypeError` unless
`data_size` is an `int` (in particular when it is `None`); if the loop
body runs at all, `msg_size if msg_size <= 4 else 4` and the `memmove`
source (line 267) require an `int` and a ctypes buffer.  When every
argument has the expected type this is exactly `write`.  Result: the
transfers performed, and the outcome of the call. -/
def write_dyn (oracle : Nat → Int)
    (b_request report_id w_index msg_size data data_size : PyVal) :
    List (ControlTransfer × Bool) × Except PyErr PyVal :=
  match report_id with
  | .pyInt rid =>
    match data_size with
    | .pyInt dsz =>
      if dsz ≤ 0 then ([], .ok .pyNone)
      else
        match msg_size, data with
        | .pyInt msz, .pyStruct bytes =>
          ((write oracle (pyNumVal b_request) (rid.emod 256).toNat (pyNumVal w_index)
              msz.toNat (fun i => bytes.getD i 0) dsz.toNat
              LIBUSB_REQUEST_TYPE_CLASS LIBUSB_RECIPIENT_INTERFACE REPORT_TYPE_OUT).1,
            .ok .pyNone)
        | _, _ => ([], .error .typeError)
    | _ => ([], .error .typeError)
  | _ => ([], .error .typeError)

/-! ## `USBButtonDevice.set_color` (`usb_button.py` lines 43-56) -/

/-- The validation applied to each of `red`, `green`, `blue`:
`isinstance(color, int) and 0 <= color <= 255`.  Python `bool` is a
subclass of `int`, so `True`/`False` pass; strings — even numeric ones
like `"10"` — and every other non-`int` fail. -/
def isValidColorArg : PyVal → Bool
  | .pyInt n => decide ((0 : Int) ≤ n ∧ n ≤ 255)
  | .pyBool _ => true
  | _ => false

/-- The `int` value of an argument that passed `isValidColorArg`. -/
def pyIntVal : PyVal → Int
  | .pyInt i => i
  | .pyBool b => if b then 1 else 0
  | _ => 0

/-- `USBButtonDevice.set_color`: raise `ValueError` if any argument
fails validation (no device I/O); otherwise build
`USBButtonColorStruct(0x01, red, green, blue)` and call `write` — whose
arguments are bound as described at `write_dyn`. -/
def set_color (oracle : Nat → Int) (red green blue : PyVal) :
    List (ControlTransfer × Bool) × Except PyErr PyVal :=
  if isValidColorArg red && isValidColorArg green && isValidColorArg blue then
    let data := mkUSBButtonColorStruct 0x01 (pyIntVal red) (pyIntVal green) (pyIntVal blue)
    write_dyn oracle (.pyCUInt8 USBB_SET_COLOR) (.pyCUInt16 USBButtonWValue)
      (.pyCUInt16 USBButtonWIndex) (.pyStruct (encodeColorStruct data)) (.pyInt 4) .pyNone
  else ([], .error .valueError)

/-! ## `USBDeviceHandle.validate_config_base` (`_device.py` lines 333-363)

File reading, `json.loads` and `jsonschema.validate` are external;
they enter the model as the parse result (`Option ConfigDoc`) and the
base-schema verdict (`ConfigDoc → Bool`).  The function logs a distinct
message per failure and returns `None`; the model carries each failure
as a distinct error value holding the message the source builds. -/

/-- The fields of a parsed configuration document that this layer
reads.  A missing key is `none` (Python would raise `KeyError` on
subscript access). -/
structure ConfigDoc where
  resourceType : Option String
  deviceClass : Option String
  colorRGB : Option (Int × Int × Int)
  deriving Repr, DecidableEq

/-- The failure modes of `validate_config_base`, each holding the error
message the source logs (the schema-violation message also carries the
validator text in the source, appended after a newline; only the
fixed prefix is modelled). -/
inductive VError where
  | noSchema
  | invalidJSON (msg : String)
  | schemaViolation (msg : String)
  | unsupportedResourceType (msg : String)
  | keyError
  deriving Repr, DecidableEq

/-- `validate_config_base(config_file, resource_types)`:
load `base.schema` (fails → `None`), parse the file as JSON
(`JSONDecodeError` → `None`), validate against the base schema
(`ValidationError` → `None`), then reject a `resourceType` outside
`resource_types` with the message
built — as in the source — by appending, to the fixed text
about accepted types, a space, an opening parenthesis, the
comma-joined accepted set, a closing parenthesis and a period;
otherwise return the document. -/
def validate_config_base (baseSchemaFound : Bool) (parsed : Option ConfigDoc)
    (baseOk : ConfigDoc → Bool) (resource_types : List String) :
    Except VError ConfigDoc :=
  if ¬ baseSchemaFound then .error .noSchema
  else
    match parsed with
    | none => .error (.invalidJSON "Configuration file is not valid JSON.")
    | some config =>
      if ¬ baseOk config then
        .error (.schemaViolation "Configuration file did not validate against the base schema.")
      else
        match config.resourceType with
        | none => .error .keyError
        | some rt =>
          if rt ∈ resource_types then .ok config
          else
            .error (.unsupportedResourceType
              ("Resource type does not match accepted types" ++
                " (" ++ String.intercalate "," resource_types ++ ")."))

/-- Whether `t` occurs as a contiguous substring of `s` (used to state
what an error message does or does not name). -/
def containsSub : List Char → List Char → Bool
  | _, [] => true
  | [], _ :: _ => false
  | a :: s, b :: t => List.isPrefixOf (b :: t) (a :: s) || containsSub s (b :: t)

/-! ## `USBButtonDevice.set_config` (`usb_button.py` lines 71-97) -/

/-- Python truthiness of the returned document for the
`if not config: return False` test: the parsed JSON object is falsy only
when it is the empty dict (no keys at all). -/
def configTruthy (c : ConfigDoc) : Bool :=
  !(c.resourceType.isNone && c.deviceClass.isNone && c.colorRGB.isNone)

/-- `USBButtonDevice.set_config`: validate against the base schema with
`resource_types` holding only usb-button-color, check
that the deviceClass entry equals usb-button, dispatch on
the resourceType entry, validate against the resource schema
(external — the verdict is the `resourceOk` oracle), build
the USBButtonColorStruct of 0x01 and the red, green, blue entries of
the colorRGB entry and call `write` with the same positional argument
binding as `set_color`. -/
def set_config (oracle : Nat → Int) (baseSchemaFound : Bool)
    (parsed : Option ConfigDoc) (baseOk : ConfigDoc → Bool)
    (resourceOk : ConfigDoc → Bool) :
    List (ControlTransfer × Bool) × Except PyErr PyVal :=
  match validate_config_base baseSchemaFound parsed baseOk ["usb-button-color"] with
  | .error _ => ([], .ok (.pyBool false))
  | .ok config =>
    if ¬ configTruthy config then ([], .ok (.pyBool false))
    else
      match config.deviceClass with
      | none => ([], .error .keyError)
      | some dc =>
        if dc ≠ "usb-button" then ([], .ok (.pyBool false))
        else
          match config.resourceType with
          | none => ([], .error .keyError)
          | some rt =>
            if rt = "usb-button-color" then
              if ¬ resourceOk config then ([], .ok (.pyBool false))
              else
                match config.colorRGB with
                | none => ([], .error .keyError)
                | some (r, g, b) =>
                  let data := mkUSBButtonColorStruct 0x01 r g b
                  write_dyn oracle (.pyCUInt8 USBB_SET_COLOR) (.pyCUInt16 USBButtonWValue)
                    (.pyCUInt16 USBButtonWIndex) (.pyStruct (encodeColorStruct data))
                    (.pyInt 4) .pyNone
            else ([], .ok (.pyBool false))

/-! ## `MiniPACDevice.get_device_configuration` (`mini_pac.py` lines 33-41) -/

/-- The bytes of `Request(0x59, 0xdd, 0x0f, 0)` (four `c_ubyte`
fields, `mini_pac.py` lines 18-24). -/
def miniPACRequestBytes : List Nat := [0x59, 0xdd, 0x0f, 0x00]

/-- `MiniPACDevice.get_device_configuration`:
`ret = self.write(MINIPAC_SET, MINIPAC_REPORTID, MINIPACWIndex,
ct.sizeof(request), request, ct.sizeof(request))` — a positionally
correct call with `msg_size = data_size = 4` — then `if ret:
ret = self.read()`.  `write` has no `return` statement, so `ret` is
`None` and falsy: the read is never executed (were the branch taken,
`self.read()` would itself raise `TypeError`, lacking the required
arguments of `read`).  Result: the write transfers and the number of read calls
issued. -/
def get_device_configuration (oracle : Nat → Int) :
    List (ControlTransfer × Bool) × Nat :=
  let w := write oracle MINIPAC_SET MINIPAC_REPORTID MINIPACWIndex 4
    (fun i => miniPACRequestBytes.getD i 0) 4
    LIBUSB_REQUEST_TYPE_CLASS LIBUSB_RECIPIENT_INTERFACE REPORT_TYPE_OUT
  let readsIssued : Nat := match w.2 with
    | some true => 1
    | _ => 0
  (w.1, readsIssued)

/-! ## Concrete inputs used by witnesses and counterexamples -/

/-- A libusb oracle on which every transfer succeeds. -/
def oracleOk : Nat → Int := fun _ => 0

/-- A libusb oracle on which the first transfer fails and later ones
succeed. -/
def oracleFailFirst : Nat → Int := fun k => if k = 0 then -1 else 0

/-- The configuration document of the scenario in the spec:
`resourceType "usb-button-color"`, `deviceClass "usb-button"`,
`colorRGB red 10 green 20 blue 30`. -/
def buttonColorDoc : ConfigDoc :=
  { resourceType := some "usb-button-color"
    deviceClass := some "usb-button"
    colorRGB := some (10, 20, 30) }

/-- A document whose `resourceType` is not in the accepted set. -/
def pacdriveDoc : ConfigDoc :=
  { resourceType := some "pacdrive"
    deviceClass := some "usb-button"
    colorRGB := none }

/-- A concrete data buffer for write witnesses. -/
def sampleData : Nat → Nat := fun i => i + 10

/-! # Theorems -/

/-! ## Helper lemmas about the loop of `write` -/

theorem writeLoop_eq_range (oracle : Nat → Int)
    (rt bq wv wi rid : Nat) (data : Nat → Nat) (dsz : Nat) :
    ∀ fuel pos k, dsz ≤ pos + 4 * fuel →
      writeLoop oracle rt bq wv wi rid 4 data dsz fuel pos k =
        (List.range ((dsz - pos + 3) / 4)).map fun j =>
          (chunkTransfer rt bq wv wi rid 4 data (pos + 4 * j),
            make_control_transfer (oracle (k + j))) := by
  intro fuel
  induction fuel with
  | zero =>
    intro pos k h
    have : (dsz - pos + 3) / 4 = 0 := by omega
    simp [writeLoop, this]
  | succ n ih =>
    intro pos k h
    by_cases hp : pos < dsz
    · have hN : (dsz - pos + 3) / 4 = (dsz - (pos + 4) + 3) / 4 + 1 := by omega
      rw [writeLoop, if_pos hp, hN, List.range_succ_eq_map, List.map_cons, List.map_map]
      rw [ih (pos + 4) (k + 1) (by omega)]
      refine congrArg₂ List.cons (by norm_num) ?_
      apply List.map_congr_left
      intro j _
      simp only [Function.comp_apply, Nat.succ_eq_add_one]
      have h1 : pos + 4 + 4 * j = pos + 4 * (j + 1) := by ring
      have h2 : k + 1 + j = k + (j + 1) := by ring
      rw [h1, h2]
    · have : (dsz - pos + 3) / 4 = 0 := by omega
      rw [writeLoop, if_neg hp, this]
      simp

/-! ## Helper lemmas about the `UltimarcStruct` layout -/

theorem getD_ofFn (n : Nat) (f : Fin n → Nat) (i : Nat) (h : i < n) :
    (List.ofFn f).getD i 0 = f ⟨i, h⟩ := by
  rw [List.getD_eq_getElem _ _ (by simpa using h), List.getElem_ofFn]

theorem encodeUltimarcStruct_length (x : UltimarcStruct) :
    (encodeUltimarcStruct x).length = 256 := by
  simp only [encodeUltimarcStruct, List.length_append, List.length_ofFn,
    List.length_cons, List.length_nil]

theorem enc_getD_header (x : UltimarcStruct) :
    (encodeUltimarcStruct x).getD 0 0 = x.header % 256 := rfl

theorem enc_getD_led (x : UltimarcStruct) :
    (encodeUltimarcStruct x).getD 1 0 = x.led_packet % 256 := rfl

theorem enc_getD_quad (x : UltimarcStruct) :
    (encodeUltimarcStruct x).getD 2 0 = x.quadrature % 256 := rfl

theorem enc_getD_pad (x : UltimarcStruct) :
    (encodeUltimarcStruct x).getD 3 0 = 0 := rfl

theorem enc_getD_config (x : UltimarcStruct) :
    (encodeUltimarcStruct x).getD 4 0 = configByte x.configuration := rfl

theorem enc_getD_configPad (x : UltimarcStruct) (j : Fin 3) :
    (encodeUltimarcStruct x).getD (5 + j.val) 0 = 0 := by
  have h := j.isLt
  interval_cases h' : j.val <;> rfl

theorem enc_getD_codes (x : UltimarcStruct) (i : Fin 49) :
    (encodeUltimarcStruct x).getD (8 + i.val) 0 = x.codes i % 256 := by
  unfold encodeUltimarcStruct
  rw [List.getD_append_right _ _ _ _ (by simp only [List.length_cons, List.length_nil]; omega)]
  rw [List.getD_append_right _ _ _ _ (by simp only [List.length_cons, List.length_nil]; omega)]
  simp only [List.length_cons, List.length_nil]
  rw [List.getD_append _ _ _ _ (by simp only [List.length_ofFn]; omega)]
  have h1 : 8 + i.val - 4 - 4 = i.val := by omega
  rw [h1, getD_ofFn 49 _ i.val i.isLt]

theorem enc_getD_shifted (x : UltimarcStruct) (i : Fin 49) :
    (encodeUltimarcStruct x).getD (57 + i.val) 0 = x.shifted_codes i % 256 := by
  unfold encodeUltimarcStruct
  rw [List.getD_append_right _ _ _ _ (by simp only [List.length_cons, List.length_nil]; omega)]
  rw [List.getD_append_right _ _ _ _ (by simp only [List.length_cons, List.length_nil]; omega)]
  simp only [List.length_cons, List.length_nil]
  rw [List.getD_append_right _ _ _ _ (by simp only [List.length_ofFn]; omega)]
  simp only [List.length_ofFn]
  rw [List.getD_append _ _ _ _ (by simp only [List.length_ofFn]; omega)]
  have h1 : 57 + i.val - 4 - 4 - 49 = i.val := by omega
  rw [h1, getD_ofFn 49 _ i.val i.isLt]

theorem enc_getD_analog (x : UltimarcStruct) (i : Fin 49) :
    (encodeUltimarcStruct x).getD (106 + i.val) 0 = x.analog_axis_calibration i % 256 := by
  unfold encodeUltimarcStruct
  rw [List.getD_append_right _ _ _ _ (by simp only [List.length_cons, List.length_nil]; omega)]
  rw [List.getD_append_right _ _ _ _ (by simp only [List.length_cons, List.length_nil]; omega)]
  simp only [List.length_cons, List.length_nil]
  rw [List.getD_append_right _ _ _ _ (by simp only [List.length_ofFn]; omega)]
  rw [List.getD_append_right _ _ _ _ (by simp only [List.length_ofFn]; omega)]
  simp only [List.length_ofFn]
  rw [List.getD_append _ _ _ _ (by simp only [List.length_ofFn]; omega)]
  have h1 : 106 + i.val - 4 - 4 - 49 - 49 = i.val := by omega
  rw [h1, getD_ofFn 49 _ i.val i.isLt]

theorem enc_getD_offset (x : UltimarcStruct) (i : Fin 8) :
    (encodeUltimarcStruct x).getD (155 + i.val) 0 = x.axis_offset i % 256 := by
  unfold encodeUltimarcStruct
  rw [List.getD_append_right _ _ _ _ (by simp only [List.length_cons, List.length_nil]; omega)]
  rw [List.getD_append_right _ _ _ _ (by simp only [List.length_cons, List.length_nil]; omega)]
  simp only [List.length_cons, List.length_nil]
  rw [List.getD_append_right _ _ _ _ (by simp only [List.length_ofFn]; omega)]
  rw [List.getD_append_right _ _ _ _ (by simp only [List.length_ofFn]; omega)]
  rw [List.getD_append_right _ _ _ _ (by simp only [List.length_ofFn]; omega)]
  simp only [List.length_ofFn]
  rw [List.getD_append _ _ _ _ (by simp only [List.length_ofFn]; omega)]
  have h1 : 155 + i.val - 4 - 4 - 49 - 49 - 49 = i.val := by omega
  rw [h1, getD_ofFn 8 _ i.val i.isLt]

theorem enc_getD_scale (x : UltimarcStruct) (i : Fin 8) :
    (encodeUltimarcStruct x).getD (163 + i.val) 0 = x.axis_scale i % 256 := by
  unfold encodeUltimarcStruct
  rw [List.getD_append_right _ _ _ _ (by simp only [List.length_cons, List.length_nil]; omega)]
  rw [List.getD_append_right _ _ _ _ (by simp only [List.length_cons, List.length_nil]; omega)]
  simp only [List.length_cons, List.length_nil]
  rw [List.getD_append_right _ _ _ _ (by simp only [List.length_ofFn]; omega)]
  rw [List.getD_append_right _ _ _ _ (by simp only [List.length_ofFn]; omega)]
  rw [List.getD_append_right _ _ _ _ (by simp only [List.length_ofFn]; omega)]
  rw [List.getD_append_right _ _ _ _ (by simp only [List.length_ofFn]; omega)]
  simp only [List.length_ofFn]
  rw [List.getD_append _ _ _ _ (by simp only [List.length_ofFn]; omega)]
  have h1 : 163 + i.val - 4 - 4 - 49 - 49 - 49 - 8 = i.val := by omega
  rw [h1, getD_ofFn 8 _ i.val i.isLt]

theorem enc_getD_macros (x : UltimarcStruct) (i : Fin 85) :
    (encodeUltimarcStruct x).getD (171 + i.val) 0 = x.macros i % 256 := by
  unfold encodeUltimarcStruct
  rw [List.getD_append_right _ _ _ _ (by simp only [List.length_cons, List.length_nil]; omega)]
  rw [List.getD_append_right _ _ _ _ (by simp only [List.length_cons, List.length_nil]; omega)]
  simp only [List.length_cons, List.length_nil]
  rw [List.getD_append_right _ _ _ _ (by simp only [List.length_ofFn]; omega)]
  rw [List.getD_append_right _ _ _ _ (by simp only [List.length_ofFn]; omega)]
  rw [List.getD_append_right _ _ _ _ (by simp only [List.length_ofFn]; omega)]
  rw [List.getD_append_right _ _ _ _ (by simp only [List.length_ofFn]; omega)]
  rw [List.getD_append_right _ _ _ _ (by simp only [List.length_ofFn]; omega)]
  simp only [List.length_ofFn]
  have h1 : 171 + i.val - 4 - 4 - 49 - 49 - 49 - 8 - 8 = i.val := by omega
  rw [h1, getD_ofFn 85 _ i.val i.isLt]

theorem decodeConfigByte_configByte (c : UltimarcConfigurationStruct) :
    decodeConfigByte (configByte c) = reduceConfig c := by
  unfold decodeConfigByte configByte reduceConfig
  simp only [UltimarcConfigurationStruct.mk.injEq]
  refine ⟨?_, ?_, ?_, ?_, ?_, ?_⟩ <;> omega

theorem dec_enc (x : UltimarcStruct) :
    decodeUltimarcStruct (encodeUltimarcStruct x) = reduceUltimarc x := by
  unfold decodeUltimarcStruct
  rw [enc_getD_header, enc_getD_led, enc_getD_quad, enc_getD_config,
    decodeConfigByte_configByte]
  unfold reduceUltimarc
  congr 1
  · funext i
    exact enc_getD_codes x i
  · funext i
    exact enc_getD_shifted x i
  · funext i
    exact enc_getD_analog x i
  · funext i
    exact enc_getD_offset x i
  · funext i
    exact enc_getD_scale x i
  · funext i
    exact enc_getD_macros x i

theorem configByte_reduceConfig (c : UltimarcConfigurationStruct) :
    configByte (reduceConfig c) = configByte c := by
  simp only [configByte, reduceConfig]
  omega

theorem enc_reduce (x : UltimarcStruct) :
    encodeUltimarcStruct (reduceUltimarc x) = encodeUltimarcStruct x := by
  simp only [encodeUltimarcStruct, reduceUltimarc, configByte_reduceConfig]
  simp [Nat.mod_mod_of_dvd]

theorem encode_roundtrip (x : UltimarcStruct) :
    encodeUltimarcStruct (decodeUltimarcStruct (encodeUltimarcStruct x)) =
      encodeUltimarcStruct x := by
  rw [dec_enc, enc_reduce]

/-! ## Claim theorems -/

/-- C1, counterexample: a write call with report id 1, msg_size 2 and a
6-byte payload makes 3 chunk transfers, not ceil(6/4) = 2, and each
chunk carries only 2 fresh data bytes, not 4 — the chunk stride of
`write` is `msg_size`, not 4. -/
theorem write_chunking_counterexample :
    ((write oracleOk 9 1 2 2 sampleData 6
        LIBUSB_REQUEST_TYPE_CLASS LIBUSB_RECIPIENT_INTERFACE REPORT_TYPE_OUT).1.length = 3) ∧
      ((6 + 3) / 4 : Nat) = 2 ∧
      ((write oracleOk 9 1 2 2 sampleData 6
          LIBUSB_REQUEST_TYPE_CLASS LIBUSB_RECIPIENT_INTERFACE REPORT_TYPE_OUT).1.map
        fun t => t.1.dataBytes) =
        [[1, 10, 11, 0, 0], [1, 12, 13, 0, 0], [1, 14, 15, 0, 0]] := by
  refine ⟨rfl, rfl, rfl⟩

/-- C1, amended: for every call to `write` with `msg_size = 4` and a
payload larger than 4 bytes, the payload is split into
ceil(data_size/4) sequential chunk transfers, each carrying the next 4
data bytes prefixed by the 1-byte report id; requestType, bRequest,
wValue and wIndex are identical across chunks and only the data offset
advances; each transfer passes the 5-byte buffer, at offset 1 (report
byte omitted) when the report id is zero and at offset 0 otherwise. -/
theorem write_chunking_msg_size_four
    (oracle : Nat → Int) (b_request report_id w_index data_size : Nat)
    (data : Nat → Nat) (request_type recipient report_type : Nat)
    (h : 4 < data_size) :
    (write oracle b_request report_id w_index 4 data data_size
        request_type recipient report_type).1.map Prod.fst =
      (List.range ((data_size + 3) / 4)).map fun k =>
        { requestType := Nat.lor (Nat.lor LIBUSB_ENDPOINT_OUT request_type) recipient
          bRequest := b_request
          wValue := Nat.lor report_type report_id
          wIndex := w_index
          dataBytes := [report_id % 256, data (4 * k) % 256, data (4 * k + 1) % 256,
            data (4 * k + 2) % 256, data (4 * k + 3) % 256]
          dataOffset := if report_id ≠ 0 then 0 else 1
          size := 5 } := by
  unfold write
  simp only
  rw [writeLoop_eq_range oracle _ b_request _ w_index report_id data data_size
    (data_size + 1) 0 0 (by omega)]
  rw [List.map_map]
  apply List.map_congr_left
  intro j _
  simp only [Function.comp_apply, Nat.zero_add]
  unfold chunkTransfer chunkPayload chunkCopyLen
  have h4 : List.range 4 = [0, 1, 2, 3] := rfl
  simp [h4]

/-- C1, witness: the amended chunking theorem at report id 0,
data_size 9 and a concrete data buffer. -/
theorem write_chunking_msg_size_four_witness :
    (4 : Nat) < 9 ∧
      (write oracleOk 9 0 2 4 sampleData 9
          LIBUSB_REQUEST_TYPE_CLASS LIBUSB_RECIPIENT_INTERFACE REPORT_TYPE_OUT).1.map Prod.fst =
        (List.range ((9 + 3) / 4)).map fun k =>
          { requestType := Nat.lor (Nat.lor LIBUSB_ENDPOINT_OUT LIBUSB_REQUEST_TYPE_CLASS)
              LIBUSB_RECIPIENT_INTERFACE
            bRequest := 9
            wValue := Nat.lor REPORT_TYPE_OUT 0
            wIndex := 2
            dataBytes := [0 % 256, sampleData (4 * k) % 256, sampleData (4 * k + 1) % 256,
              sampleData (4 * k + 2) % 256, sampleData (4 * k + 3) % 256]
            dataOffset := if (0 : Nat) ≠ 0 then 0 else 1
            size := 5 } :=
  ⟨by decide,
    write_chunking_msg_size_four oracleOk 9 0 2 9 sampleData
      LIBUSB_REQUEST_TYPE_CLASS LIBUSB_RECIPIENT_INTERFACE REPORT_TYPE_OUT (by decide)⟩

/-- C2, amended: the encoded `UltimarcStruct` buffer is always exactly
256 bytes, encode-decode-encode is stable, and the fields appear in the
declared order at the ctypes offsets: header 0, LED-packet 1,
quadrature 2, one alignment padding byte at 3, the 8 configuration bits
in byte 4 with three zero container bytes at 5-7, codes at 8-56,
shifted_codes at 57-105, analog_axis_calibration at 106-154, axis
offsets at 155-162, axis scales at 163-170 and the 85 macro bytes at
171-255. -/
theorem ultimarcStruct_layout_roundtrip (x : UltimarcStruct) :
    (encodeUltimarcStruct x).length = 256 ∧
      encodeUltimarcStruct (decodeUltimarcStruct (encodeUltimarcStruct x)) =
        encodeUltimarcStruct x ∧
      (encodeUltimarcStruct x).getD 0 0 = x.header % 256 ∧
      (encodeUltimarcStruct x).getD 1 0 = x.led_packet % 256 ∧
      (encodeUltimarcStruct x).getD 2 0 = x.quadrature % 256 ∧
      (encodeUltimarcStruct x).getD 3 0 = 0 ∧
      (encodeUltimarcStruct x).getD 4 0 = configByte x.configuration ∧
      (∀ j : Fin 3, (encodeUltimarcStruct x).getD (5 + j.val) 0 = 0) ∧
      (∀ i : Fin 49, (encodeUltimarcStruct x).getD (8 + i.val) 0 = x.codes i % 256) ∧
      (∀ i : Fin 49, (encodeUltimarcStruct x).getD (57 + i.val) 0 = x.shifted_codes i % 256) ∧
      (∀ i : Fin 49,
        (encodeUltimarcStruct x).getD (106 + i.val) 0 = x.analog_axis_calibration i % 256) ∧
      (∀ i : Fin 8, (encodeUltimarcStruct x).getD (155 + i.val) 0 = x.axis_offset i % 256) ∧
      (∀ i : Fin 8, (encodeUltimarcStruct x).getD (163 + i.val) 0 = x.axis_scale i % 256) ∧
      (∀ i : Fin 85, (encodeUltimarcStruct x).getD (171 + i.val) 0 = x.macros i % 256) :=
  ⟨encodeUltimarcStruct_length x, encode_roundtrip x, enc_getD_header x, enc_getD_led x,
    enc_getD_quad x, enc_getD_pad x, enc_getD_config x, enc_getD_configPad x,
    enc_getD_codes x, enc_getD_shifted x, enc_getD_analog x, enc_getD_offset x,
    enc_getD_scale x, enc_getD_macros x⟩

set_option maxRecDepth 8000 in
/-- C2, counterexample: the tightly packed layout the claim words
describe (a single configuration byte directly followed by the tables)
differs from the ctypes encoding: it has 252 bytes instead of 256, and
at offset 3 and 4 the two layouts hold different bytes on a concrete
record. -/
theorem ultimarcStruct_spec_layout_counterexample :
    specEncodeUltimarcStruct sampleRecord ≠ encodeUltimarcStruct sampleRecord ∧
      (specEncodeUltimarcStruct sampleRecord).length = 252 ∧
      (encodeUltimarcStruct sampleRecord).length = 256 ∧
      (encodeUltimarcStruct sampleRecord).getD 3 0 = 0 ∧
      (specEncodeUltimarcStruct sampleRecord).getD 3 0 = 245 ∧
      (encodeUltimarcStruct sampleRecord).getD 4 0 = 245 ∧
      (specEncodeUltimarcStruct sampleRecord).getD 4 0 = 42 :=
  ⟨by decide, by decide, by decide, by decide, by decide, by decide, by decide⟩


/-- C3: every call to `get_color` raises `ctypes.ArgumentError` during
the first read attempt — `_make_control_transfer` casts the
`USBButtonColorStruct` instance to a ubyte pointer, which `ctypes.cast`
rejects — before any USB transfer; whatever the device would have
answered, no retry happens, no decoded triple and no (None, None, None)
result is ever returned. -/
theorem get_color_raises_argument_error (att : Nat → Int × List Nat) :
    get_color att = (.error .argumentError, 1) := rfl

/-- C4: on the document with resourceType usb-button-color,
deviceClass usb-button and colorRGB (10, 20, 30), with every validation
passing, `set_config` raises TypeError inside `write` (its arguments
are bound positionally against the newer write signature) and issues no
USB transfer — not the single [0x01, 10, 20, 30] write the claim
states. -/
theorem set_config_button_color_typeerror :
    set_config oracleOk true (some buttonColorDoc) (fun _ => true) (fun _ => true) =
      ([], .error .typeError) := rfl

/-- C5: during a 2-chunk write whose first chunk transfer fails, the
second chunk is still sent (the loop ignores the per-chunk result) and
`write` returns None — not the first failure the claim states. -/
theorem write_continues_after_failed_chunk :
    ((write oracleFailFirst 9 3 2 4 sampleData 8
        LIBUSB_REQUEST_TYPE_CLASS LIBUSB_RECIPIENT_INTERFACE REPORT_TYPE_OUT).1.map
      Prod.snd = [false, true]) ∧
      (write oracleFailFirst 9 3 2 4 sampleData 8
          LIBUSB_REQUEST_TYPE_CLASS LIBUSB_RECIPIENT_INTERFACE REPORT_TYPE_OUT).2 = none :=
  ⟨rfl, rfl⟩

/-- C6, counterexample: `set_color` on the in-range integers
(10, 20, 30) raises TypeError inside `write` and issues no USB
transfer, refuting the claim that such calls issue one write. -/
theorem set_color_valid_args_counterexample :
    set_color oracleOk (.pyInt 10) (.pyInt 20) (.pyInt 30) = ([], .error .typeError) := rfl

/-- C6, amended: `set_color` rejects any argument that is not an int
in [0, 255] — including a numeric string such as the string 10 — with
ValueError before any device I/O; arguments that pass validation reach
the `write` call, which raises TypeError (positional argument mismatch)
so that no USB transfer is issued on any path. -/
theorem set_color_validation (oracle : Nat → Int) (red green blue : PyVal) :
    set_color oracle red green blue =
      ([], .error
        (if isValidColorArg red && isValidColorArg green && isValidColorArg blue
          then PyErr.typeError else PyErr.valueError)) := by
  cases hb : isValidColorArg red && isValidColorArg green && isValidColorArg blue with
  | false => simp [set_color, hb]
  | true => simp [set_color, hb, write_dyn]

/-- C7, counterexample: rejecting resourceType pacdrive against the
accepted set [usb-button-color] logs a message that names the valid set
but does not contain the rejected value. -/
theorem validate_config_base_message_counterexample :
    validate_config_base true (some pacdriveDoc) (fun _ => true) ["usb-button-color"] =
        .error (.unsupportedResourceType
          "Resource type does not match accepted types (usb-button-color).") ∧
      containsSub "Resource type does not match accepted types (usb-button-color).".toList
        "pacdrive".toList = false ∧
      containsSub "Resource type does not match accepted types (usb-button-color).".toList
        "usb-button-color".toList = true :=
  ⟨rfl, by decide, by decide⟩

/-- C7, amended: `validate_config_base` returns the parsed document
iff the file parses, the base schema validates and the resourceType is
in the accepted set; an unparseable file, a base-schema violation or a
resourceType outside the set each yield an error result, the last with
a message naming the valid set (not the rejected value). -/
theorem validate_config_base_behavior (parsed : Option ConfigDoc)
    (baseOk : ConfigDoc → Bool) (rts : List String) (c : ConfigDoc) :
    (validate_config_base true parsed baseOk rts = .ok c ↔
      (parsed = some c ∧ baseOk c = true ∧
        ∃ rt, c.resourceType = some rt ∧ rt ∈ rts)) ∧
      (parsed = none →
        validate_config_base true parsed baseOk rts =
          .error (.invalidJSON "Configuration file is not valid JSON.")) ∧
      (∀ d, parsed = some d → baseOk d = false →
        validate_config_base true parsed baseOk rts =
          .error (.schemaViolation
            "Configuration file did not validate against the base schema.")) ∧
      (∀ d rt, parsed = some d → baseOk d = true → d.resourceType = some rt →
        rt ∉ rts →
        validate_config_base true parsed baseOk rts =
          .error (.unsupportedResourceType
            ("Resource type does not match accepted types" ++
              " (" ++ String.intercalate "," rts ++ ")."))) := by
  refine ⟨?_, ?_, ?_, ?_⟩
  · constructor
    · intro h
      cases parsed with
      | none => exact absurd h (by simp [validate_config_base])
      | some d =>
        by_cases hb : baseOk d = true
        · cases hrt : d.resourceType with
          | none => exact absurd h (by simp [validate_config_base, hb, hrt])
          | some rt =>
            by_cases hm : rt ∈ rts
            · have hdc : d = c := by
                have h2 := h
                simp [validate_config_base, hb, hrt, hm] at h2
                exact h2
              subst hdc
              exact ⟨rfl, hb, rt, hrt, hm⟩
            · exact absurd h (by simp [validate_config_base, hb, hrt, hm])
        · exact absurd h (by simp [validate_config_base, hb])
    · rintro ⟨hp, hb, rt, hrt, hm⟩
      subst hp
      simp [validate_config_base, hb, hrt, hm]
  · intro hp
    subst hp
    simp [validate_config_base]
  · intro d hp hb
    subst hp
    simp [validate_config_base, hb]
  · intro d rt hp hb hrt hm
    subst hp
    simp [validate_config_base, hb, hrt, hm]

/-- C7, witness: the behavior theorem instantiated on a document that
passes every check. -/
theorem validate_config_base_behavior_witness :
    validate_config_base true (some buttonColorDoc) (fun _ => true) ["usb-button-color"] =
      .ok buttonColorDoc :=
  (validate_config_base_behavior (some buttonColorDoc) (fun _ => true)
      ["usb-button-color"] buttonColorDoc).1.mpr
    ⟨rfl, rfl, "usb-button-color", rfl, by decide⟩

/-- C8: `get_device_configuration` writes the fixed query packet
0x59 0xdd 0x0f 0x00 with bRequest 0x09, report id 3 (wValue 200|3=203)
and wIndex 0x0002 — but the follow-up read is never issued, even when
every transfer succeeds, because `write` returns None and the
`if ret:` guard is always false. -/
theorem get_device_configuration_read_never_issued (oracle : Nat → Int) :
    (get_device_configuration oracle).2 = 0 ∧
      (get_device_configuration oracle).1.map Prod.fst =
        [{ requestType := 0x21
           bRequest := 0x09
           wValue := 203
           wIndex := 0x02
           dataBytes := [3, 0x59, 0xdd, 0x0f, 0x00]
           dataOffset := 0
           size := 5 }] :=
  ⟨rfl, rfl⟩

/-- C9: on a pointer-like data argument `read` passes the caller
supplied size unchanged to the control transfer — not size + 8 as the
claim (and the source comment above the call) states; on a `Structure`
data argument (every actual read in the repository) no transfer happens
at all, so nothing ever receives size + 8. -/
theorem read_size_passed_unchanged (oracle : Int)
    (b_request w_value w_index size request_type recipient : Nat)
    (bytes : List Nat) (off : Nat) :
    read oracle b_request w_value w_index (.byrefArg bytes off) size
        request_type recipient =
      .ok ({ requestType := Nat.lor (Nat.lor LIBUSB_ENDPOINT_IN request_type) recipient
             bRequest := b_request
             wValue := w_value
             wIndex := w_index
             dataBytes := bytes
             dataOffset := off
             size := size },
        make_control_transfer oracle) ∧
      read oracle b_request w_value w_index (.structArg bytes) size
          request_type recipient =
        .error .argumentError :=
  ⟨rfl, rfl⟩

/-- C10: for all r, g, b in [0, 255], encoding the ColorPayload built
by the driver and decoding the buffer yields exactly (0x01, r, g, b);
the target byte of every constructed payload is 0x01 regardless of
input. -/
theorem colorStruct_roundtrip_and_target (r g b : Nat)
    (hr : r ≤ 255) (hg : g ≤ 255) (hb : b ≤ 255) :
    decodeColorStruct (encodeColorStruct (mkUSBButtonColorStruct 0x01 r g b)) =
        { target := 1, red := r, green := g, blue := b } ∧
      (∀ red green blue : Int, (mkUSBButtonColorStruct 0x01 red green blue).target = 1) := by
  constructor
  · rw [show encodeColorStruct (mkUSBButtonColorStruct 0x01 (r : Int) (g : Int) (b : Int)) =
        [1 % 256 % 256, ((r : Int) % 256).toNat % 256,
          ((g : Int) % 256).toNat % 256, ((b : Int) % 256).toNat % 256] from rfl]
    rw [show ∀ a2 b2 c2 d2 : Nat,
        decodeColorStruct [a2, b2, c2, d2] = ⟨a2, b2, c2, d2⟩ from fun _ _ _ _ => rfl]
    simp only [USBButtonColorStruct.mk.injEq]
    refine ⟨by norm_num, by omega, by omega, by omega⟩
  · intro red green blue
    rfl

/-- C10, witness: the round-trip theorem at (10, 20, 30). -/
theorem colorStruct_roundtrip_and_target_witness :
    decodeColorStruct (encodeColorStruct (mkUSBButtonColorStruct 0x01 10 20 30)) =
        { target := 1, red := 10, green := 20, blue := 30 } ∧
      (∀ red green blue : Int, (mkUSBButtonColorStruct 0x01 red green blue).target = 1) :=
  colorStruct_roundtrip_and_target 10 20 30 (by decide) (by decide) (by decide)


end Ultimarc
